import Mathlib

/-!
# Verification of `saleor/checkout/complete_checkout.py`

A shallow embedding of the checkout-completion orchestrator of the Saleor
repository (file `saleor/checkout/complete_checkout.py`).  Python `Decimal`
amounts are modelled as rationals, ORM rows as Lean structures, the database
as an explicit `DB` value threaded through each operation, and external
collaborators (pricing engine, payment gateway, stock engine, plugin hooks)
as oracle records describing their observable outcomes.  Side effects that
the orchestrator requests from collaborators (voucher ledger calls, gateway
refunds, stock reservations, lock handling) are recorded in an effect trace.
-/

set_option autoImplicit false

namespace Saleor

/-- Python `Decimal` amounts are modelled as rationals. -/
abbrev Amount := ℚ

/-- Model of `prices.Money`: an amount with a currency. -/
structure Money where
  amount : Amount
  currency : String
  deriving Repr, DecidableEq

instance : Sub Money := ⟨fun a b => ⟨a.amount - b.amount, a.currency⟩⟩

/-- Model of `prices.TaxedMoney`: a pair of net and gross `Money`. -/
structure TaxedMoney where
  net : Money
  gross : Money
  deriving Repr, DecidableEq

instance : Sub TaxedMoney := ⟨fun a b => ⟨a.net - b.net, a.gross - b.gross⟩⟩

@[simp] theorem Money.sub_amount (a b : Money) : (a - b).amount = a.amount - b.amount := rfl

@[simp] theorem TaxedMoney.sub_net (a b : TaxedMoney) : (a - b).net = a.net - b.net := rfl

@[simp] theorem TaxedMoney.sub_gross (a b : TaxedMoney) : (a - b).gross = a.gross - b.gross := rfl

/-- Model of `OrderStatus` values relevant to order creation (the model keeps the other
enum members so that the status decision is not vacuous). -/
inductive OrderStatus where
  | unconfirmed
  | unfulfilled
  | fulfilled
  | canceled
  | draft
  deriving Repr, DecidableEq

/-- Model of `MarkAsPaidStrategy` channel setting. -/
inductive MarkAsPaidStrategy where
  | paymentFlow
  | transactionFlow
  deriving Repr, DecidableEq

/-- Model of `OrderOrigin` values. -/
inductive OrderOrigin where
  | checkout
  | draft
  | reissue
  deriving Repr, DecidableEq

/-- Model of `DiscountType` values. -/
inductive DiscountType where
  | voucher
  | manual
  | promotion
  deriving Repr, DecidableEq

/-- Model of `DiscountValueType` values. -/
inductive DiscountValueType where
  | fixed
  | percentage
  deriving Repr, DecidableEq

/-- A voucher row: only the fields the orchestrator reads.  `usageLimit` is
whether a usage limit is set (`voucher.usage_limit` truthiness). -/
structure Voucher where
  code : String
  usageLimit : Bool
  applyOncePerCustomer : Bool
  deriving Repr, DecidableEq

/-- A channel row: the configuration knobs read by the orchestrator. -/
structure Channel where
  slug : String
  isActive : Bool
  automaticallyConfirmAllNewOrders : Bool
  allowUnpaidOrders : Bool
  orderMarkAsPaidStrategy : MarkAsPaidStrategy
  deriving Repr, DecidableEq

/-- A checkout row (`Checkout` model): the fields read by
`complete_checkout.py`.  `authorizeStatusFull` is
`checkout.authorize_status == CheckoutAuthorizeStatus.FULL`;
`hasPaymentTransactions` is `checkout.payment_transactions.exists()`
(equivalently the truthiness of the fetched queryset). -/
structure Checkout where
  token : Nat
  currency : String
  voucherCode : Option String
  discountAmount : Amount
  discountName : Option String
  translatedDiscountName : Option String
  total : TaxedMoney
  authorizeStatusFull : Bool
  hasPaymentTransactions : Bool
  taxExemption : Bool
  languageCode : String
  deriving Repr, DecidableEq

/-- Model of `checkout.discount` (a `MoneyField` over `discount_amount`). -/
def Checkout.discount (c : Checkout) : Money := ⟨c.discountAmount, c.currency⟩

/-- Truthiness of `prices.Money` (`Money.__bool__` is the truthiness of the
decimal amount), used by `if checkout.discount:`. -/
def Money.toBool (m : Money) : Bool := m.amount != 0

/-- A checkout line row: identity, quantity. -/
structure CheckoutLine where
  id : Nat
  quantity : Nat
  deriving Repr, DecidableEq

/-- Results of the external pricing engine for one line, exactly the six
collaborator calls made by `_create_line_for_order`
(`calculate_base_line_unit_price`, `calculate_undiscounted_base_line_unit_price`,
`calculate_undiscounted_base_line_total_price`, `calculations.checkout_line_total`,
`calculations.checkout_line_unit_price`, `calculations.checkout_line_tax_rate`). -/
structure LinePricing where
  baseUnitPrice : Money
  undiscountedBaseUnitPrice : Money
  undiscountedBaseTotalPrice : Money
  totalLinePrice : TaxedMoney
  unitPrice : TaxedMoney
  taxRate : Amount
  deriving Repr, DecidableEq

/-- The enriched checkout-line view (`CheckoutLineInfo`): resolved variant and
product identity, the line voucher, and promotion-rule data.
`promotionDiscountReason` and `saleId` are the values returned by the external
helpers `prepare_promotion_discount_reason` and `get_sale_id` for the (single)
promotion of `rules_info`; `hasPromotionDiscounts` is whether
`get_promotion_discounts()` is non-empty. -/
structure CheckoutLineInfo where
  line : CheckoutLine
  productId : Nat
  variantId : Nat
  productName : String
  variantName : String
  voucher : Option Voucher
  hasPromotionDiscounts : Bool
  promotionDiscountReason : String
  saleId : String
  pricing : LinePricing
  deriving Repr, DecidableEq

/-- An order line row: the snapshot fields assigned by `_create_line_for_order`. -/
structure OrderLine where
  productName : String
  variantName : String
  translatedProductName : String
  translatedVariantName : String
  quantity : Nat
  unitPrice : TaxedMoney
  undiscountedUnitPrice : TaxedMoney
  undiscountedTotalPrice : TaxedMoney
  totalPrice : TaxedMoney
  taxRate : Amount
  voucherCode : Option String
  unitDiscount : Money
  unitDiscountReason : Option String
  unitDiscountValue : Amount
  baseUnitPrice : Money
  undiscountedBaseUnitPrice : Money
  saleId : Option String
  deriving Repr, DecidableEq

/-- Model of `translations.get(id, "")` over the rows fetched by
`_create_lines_for_order` (a dict from object id to translated name). -/
def lookupTranslation (translations : List (Nat × String)) (id : Nat) : String :=
  (((translations.find? (fun p => p.1 == id)).map Prod.snd)).getD ""

/-- Model of `_create_line_for_order`: builds one `OrderLine` from a checkout line,
its pricing-engine results and the prefetched translations.  The discount
amount is the difference `undiscounted_unit_price - unit_price` taken gross
when `prices_entered_with_tax` and net otherwise; a translated name equal to
the canonical one is replaced by the empty string. -/
def createLineForOrder (info : CheckoutLineInfo)
    (productsTranslation variantsTranslation : List (Nat × String))
    (pricesEnteredWithTax : Bool) : OrderLine :=
  let productName := info.productName
  let variantName := info.variantName
  let tp := lookupTranslation productsTranslation info.productId
  let tv := lookupTranslation variantsTranslation info.variantId
  let translatedProductName := if tp == productName then "" else tp
  let translatedVariantName := if tv == variantName then "" else tv
  let undiscountedUnitPrice : TaxedMoney :=
    ⟨info.pricing.undiscountedBaseUnitPrice, info.pricing.undiscountedBaseUnitPrice⟩
  let undiscountedTotalPrice : TaxedMoney :=
    ⟨info.pricing.undiscountedBaseTotalPrice, info.pricing.undiscountedBaseTotalPrice⟩
  let unitPrice := info.pricing.unitPrice
  let voucherCode := info.voucher.map Voucher.code
  let discountPrice := undiscountedUnitPrice - unitPrice
  let discountAmount := if pricesEnteredWithTax then discountPrice.gross else discountPrice.net
  let unitDiscountReasonBase : Option String :=
    voucherCode.map (fun c => "Voucher code: " ++ c)
  let saleId : Option String :=
    if info.hasPromotionDiscounts then some info.saleId else none
  let unitDiscountReason : Option String :=
    if info.hasPromotionDiscounts then
      some (match unitDiscountReasonBase with
            | some r => r ++ " & " ++ info.promotionDiscountReason
            | none => info.promotionDiscountReason)
    else unitDiscountReasonBase
  { productName := productName
    variantName := variantName
    translatedProductName := translatedProductName
    translatedVariantName := translatedVariantName
    quantity := info.line.quantity
    unitPrice := unitPrice
    undiscountedUnitPrice := undiscountedUnitPrice
    undiscountedTotalPrice := undiscountedTotalPrice
    totalPrice := info.pricing.totalLinePrice
    taxRate := info.pricing.taxRate
    voucherCode := voucherCode
    unitDiscount := discountAmount
    unitDiscountReason := unitDiscountReason
    unitDiscountValue := discountAmount.amount
    baseUnitPrice := info.pricing.baseUnitPrice
    undiscountedBaseUnitPrice := info.pricing.undiscountedBaseUnitPrice
    saleId := saleId }

/-- A warehouse stock row as used by
`_reserve_stocks_without_availability_check`. -/
structure Stock where
  id : Nat
  productVariantId : Nat
  deriving Repr, DecidableEq

/-- A `Reservation` row: a short-lived stock hold on a checkout line. -/
structure Reservation where
  quantityReserved : Nat
  reservedUntil : Nat
  stockId : Nat
  checkoutLineId : Nat
  deriving Repr, DecidableEq

/-- Model of `variants_stocks_map` lookup: the Python dict comprehension
`{stock.product_variant_id: stock for stock in stocks}` keeps, for each
variant id, the last stock in iteration order. -/
def stockForVariant (stocks : List Stock) (variantId : Nat) : Option Stock :=
  stocks.reverse.find? (fun s => s.productVariantId == variantId)

/-- Model of `_reserve_stocks_without_availability_check`: for each checkout line whose
variant has a stock row in the country/channel map, create a `Reservation`
carrying the line's quantity, expiring `RESERVE_DURATION` seconds from now.
No availability data is consulted. -/
def reserveStocksWithoutAvailabilityCheck (now reserveDuration : Nat)
    (lines : List CheckoutLineInfo) (stocks : List Stock) : List Reservation :=
  lines.filterMap (fun line =>
    (stockForVariant stocks line.variantId).map (fun st =>
      { quantityReserved := line.line.quantity
        reservedUntil := now + reserveDuration
        stockId := st.id
        checkoutLineId := line.line.id }))

/-- An order-level discount row (`order.discounts.create(...)`). -/
structure OrderDiscount where
  type : DiscountType
  valueType : DiscountValueType
  value : Amount
  name : Option String
  translatedName : Option String
  currency : String
  amountValue : Amount
  deriving Repr, DecidableEq

/-- Model of `_handle_checkout_discount`: when `checkout.discount` is truthy (non-zero
amount), create exactly one order discount of type `VOUCHER` with value type
`FIXED` holding the checkout's discount amount. -/
def handleCheckoutDiscount (checkout : Checkout) : List OrderDiscount :=
  if checkout.discount.toBool then
    [{ type := DiscountType.voucher
       valueType := DiscountValueType.fixed
       value := checkout.discount.amount
       name := checkout.discountName
       translatedName := checkout.translatedDiscountName
       currency := checkout.currency
       amountValue := checkout.discountAmount }]
  else []

/-- An order row: the fields assigned by the two order materializers. -/
structure Order where
  checkoutToken : Nat
  status : OrderStatus
  origin : OrderOrigin
  channel : Channel
  total : TaxedMoney
  undiscountedTotal : TaxedMoney
  discounts : List OrderDiscount
  lines : List OrderLine
  voucher : Option Voucher
  deriving Repr, DecidableEq

/-- The persisted state visible to the orchestrator: the set of order rows and
whether the checkout row still exists (the checkout is the mutual-exclusion
anchor; `select_for_update().filter(pk=...).first()` observes this flag). -/
structure DB where
  orders : List Order
  checkoutExists : Bool
  deriving Repr, DecidableEq

/-- Model of `Order.objects.filter(checkout_token=token).first()` /
`Order.objects.get_by_checkout_token(token)`. -/
def findOrderByToken (db : DB) (token : Nat) : Option Order :=
  db.orders.find? (fun o => o.checkoutToken == token)

/-- Orders in the database carrying a given checkout token. -/
def countOrdersWithToken (db : DB) (token : Nat) : Nat :=
  (db.orders.filter (fun o => o.checkoutToken == token)).length

instance : Add Money := ⟨fun a b => ⟨a.amount + b.amount, a.currency⟩⟩

instance : Add TaxedMoney := ⟨fun a b => ⟨a.net + b.net, a.gross + b.gross⟩⟩

/-- Model of `zero_taxed_money(currency)`. -/
def zeroTaxedMoney (currency : String) : TaxedMoney :=
  ⟨⟨0, currency⟩, ⟨0, currency⟩⟩

/-- A payment row: the fields the orchestrator reads directly. -/
structure Payment where
  id : Nat
  toConfirm : Bool
  gatewayName : String
  deriving Repr, DecidableEq

/-- The result of a gateway `confirm`/`process_payment` call
(`payment.models.Transaction`). -/
structure GatewayTxn where
  isSuccess : Bool
  errorMessage : String
  actionRequired : Bool
  actionRequiredData : List (String × String)
  customerId : Option String
  deriving Repr, DecidableEq

/-- Collaborator calls requested by the orchestrator, recorded as a trace.
`releaseVoucherUsage` carries the (possibly absent) voucher passed to
`release_voucher_usage`; `refundOrVoid` the (possibly absent) payment passed
to `gateway.payment_refund_or_void`. -/
inductive Eff where
  | increaseVoucherUsage (v : Voucher)
  | addVoucherUsageByCustomer (v : Voucher)
  | releaseVoucherUsage (v : Option Voucher)
  | refundOrVoid (p : Option Payment)
  | reserveStocks (rs : List Reservation)
  | acquireCheckoutLock
  | releaseCheckoutLock
  | deleteCheckout
  | markOrderAsPaid
  deriving Repr, DecidableEq

/-- The failure classes surfaced by the orchestrator.  At the GraphQL
boundary every one of them is wrapped into a `ValidationError` with a field
code; the constructors keep the originating class. -/
inductive Failure where
  | validationError
  | notFullyPaid
  | voucherNotApplicable
  | insufficientStock
  | giftCardNotApplicable
  | taxError
  | paymentError
  | inactivePayment
  | orderDoesNotExist
  deriving Repr, DecidableEq

/-- Observable behaviour of the external collaborators during one completion
attempt: lookups, validation outcomes, pricing-engine results and gateway
results.  Each field corresponds to one collaborator listed in the source
(`get_voucher_for_checkout_info`, `check_stock_and_preorder_quantity_bulk`,
`_validate_gift_cards`, `manager.preprocess_order_creation`,
`clean_checkout_payment`/`_prepare_checkout`, `clean_billing_address`,
`gateway.confirm`/`process_payment`, `payment.is_active` after refresh,
`_is_refund_ongoing`'s transaction queryset, `allocate_stocks`/`allocate_preorders`,
`add_gift_cards_to_order`, the tax configuration, the checkout totals and the
stock rows used for temporary reservations). -/
structure Ext where
  voucherLookup : Option Voucher
  productsTranslation : List (Nat × String)
  variantsTranslation : List (Nat × String)
  linesStockOk : Bool
  giftCardsValid : Bool
  preprocessTaxOk : Bool
  prePaymentValidationOk : Bool
  billingAddressOk : Bool
  prepareCheckoutOk : Bool
  gatewayRaises : Bool
  gatewayTxn : GatewayTxn
  paymentActiveAfterCall : Bool
  refundOngoing : Bool
  allocateOk : Bool
  addGiftCardsOk : Bool
  pricesEnteredWithTax : Bool
  taxedTotal : TaxedMoney
  shippingTotal : TaxedMoney
  userEmail : String
  now : Nat
  reserveDuration : Nat
  stocks : List Stock
  deriving Repr, DecidableEq

/-- The order data assembled by `_prepare_order_data` (the fields consumed by
later phases). -/
structure OrderData where
  voucher : Option Voucher
  userEmail : String
  total : TaxedMoney
  undiscountedTotal : TaxedMoney
  lines : List OrderLine
  deriving Repr, DecidableEq

/-- Model of `_process_voucher_data_for_order`: fail with `NotApplicable` when the
checkout has a voucher code but the locked lookup finds no voucher; otherwise
increase usage (when a limit is set) and record per-customer usage (when
`apply_once_per_customer`). -/
def processVoucherDataForOrder (checkout : Checkout) (voucherLookup : Option Voucher) :
    Except Failure (Option Voucher) × List Eff :=
  if checkout.voucherCode.isSome && voucherLookup.isNone then
    (.error .voucherNotApplicable, [])
  else
    match voucherLookup with
    | none => (.ok none, [])
    | some v =>
        (.ok (some v),
          (if v.usageLimit then [Eff.increaseVoucherUsage v] else []) ++
          (if v.applyOncePerCustomer then [Eff.addVoucherUsageByCustomer v] else []))

/-- Model of `_prepare_order_data`: build lines (raising `InsufficientStock` from the
bulk availability check), validate gift cards, process the voucher (possibly
incrementing its usage), and run the pre-order-creation tax hook — releasing
the voucher usage when that hook raises `TaxError`. -/
def prepareOrderData (checkout : Checkout) (lines : List CheckoutLineInfo)
    (ext : Ext) : Except Failure OrderData × List Eff :=
  if !ext.linesStockOk then (.error .insufficientStock, [])
  else
    let orderLines := lines.map (fun li =>
      createLineForOrder li ext.productsTranslation ext.variantsTranslation
        ext.pricesEnteredWithTax)
    let undiscountedTotal :=
      (orderLines.map OrderLine.undiscountedTotalPrice).foldl (· + ·)
        (zeroTaxedMoney ext.taxedTotal.net.currency) + ext.shippingTotal
    if !ext.giftCardsValid then (.error .giftCardNotApplicable, [])
    else
      match processVoucherDataForOrder checkout ext.voucherLookup with
      | (.error e, effs) => (.error e, effs)
      | (.ok v, effs) =>
          if ext.preprocessTaxOk then
            (.ok { voucher := v
                   userEmail := ext.userEmail
                   total := ext.taxedTotal
                   undiscountedTotal := undiscountedTotal
                   lines := orderLines }, effs)
          else (.error .taxError, effs ++ [Eff.releaseVoucherUsage v])

/-- Model of `complete_checkout_pre_payment_part` (together with `_get_order_data`):
run the payment-specific cleaners, then `_prepare_order_data`; on any
validation failure issue a refund-or-void on the last active payment before
re-raising. -/
def completeCheckoutPrePaymentPart (checkout : Checkout)
    (lines : List CheckoutLineInfo) (payment : Option Payment) (ext : Ext) :
    Except Failure OrderData × List Eff :=
  if !ext.prePaymentValidationOk then
    (.error .validationError, [Eff.refundOrVoid payment])
  else
    match prepareOrderData checkout lines ext with
    | (.error e, effs) => (.error e, effs ++ [Eff.refundOrVoid payment])
    | (.ok od, effs) => (.ok od, effs)

/-- Model of `_process_payment`: call the gateway (`confirm` or `process_payment`); on
a gateway `PaymentError` or an unsuccessful transaction, release the voucher
usage recorded in the order data and surface a payment error. -/
def processPayment (_payment : Payment) (orderData : OrderData) (ext : Ext) :
    Except Failure GatewayTxn × List Eff :=
  if ext.gatewayRaises || !ext.gatewayTxn.isSuccess then
    (.error .paymentError, [Eff.releaseVoucherUsage orderData.voucher])
  else (.ok ext.gatewayTxn, [])

/-- Model of `_create_order` (payment-flow order materializer), an atomic transaction:
return the existing order for the checkout token when one exists; otherwise
create the order (status from the channel's auto-confirm flag, origin
checkout, discounts from `_handle_checkout_discount`, lines from the prepared
order data), allocate stocks and preorders, and add gift cards.  An
`InsufficientStock` or `GiftCardNotApplicable` failure rolls the transaction
back, leaving the database unchanged.  `paymentFlowOrder` is the order row
that `Order.objects.create(**order_data, ...)` builds in this flow. -/
def paymentFlowOrder (checkout : Checkout) (channel : Channel)
    (orderData : OrderData) : Order :=
  { checkoutToken := checkout.token
    status :=
      if channel.automaticallyConfirmAllNewOrders then OrderStatus.unfulfilled
      else OrderStatus.unconfirmed
    origin := OrderOrigin.checkout
    channel := channel
    total := orderData.total
    undiscountedTotal := orderData.undiscountedTotal
    discounts := handleCheckoutDiscount checkout
    lines := orderData.lines
    voucher := none }

/-- Model of `_create_order`, continued: the branch after the idempotency guard. -/
def createOrder (db : DB) (checkout : Checkout) (channel : Channel)
    (orderData : OrderData) (ext : Ext) : Except Failure Order × DB :=
  match findOrderByToken db checkout.token with
  | some o => (.ok o, db)
  | none =>
      let order := paymentFlowOrder checkout channel orderData
      if !ext.allocateOk then (.error .insufficientStock, db)
      else if !ext.addGiftCardsOk then (.error .giftCardNotApplicable, db)
      else (.ok order, { db with orders := order :: db.orders })

/-- Model of `_is_refund_ongoing`: a successful `REFUND_ONGOING` transaction exists on
the payment (and `False` without a payment). -/
def isRefundOngoing (payment : Option Payment) (ext : Ext) : Bool :=
  match payment with
  | some _ => ext.refundOngoing
  | none => false

/-- Model of `complete_checkout_post_payment_part`: when the gateway transaction
requires a customer action, release voucher usage and return no order with
the action data; otherwise (unless a refund is ongoing) materialize the order
via `_create_order` and delete the checkout — compensating an
`InsufficientStock` or gift-card failure with a voucher release and a
refund-or-void — and mark a zero-total order as paid when the channel's mark
as paid strategy is the payment flow.  `txnActionRequired` is whether a
payment and gateway transaction are present and the transaction requires a
further customer action. -/
def txnActionRequired (payment : Option Payment) (txn : Option GatewayTxn) : Bool :=
  match payment, txn with
  | some _, some t => t.actionRequired
  | _, _ => false

/-- The action data returned with an action-required result. -/
def txnActionData (payment : Option Payment) (txn : Option GatewayTxn) :
    List (String × String) :=
  match payment, txn with
  | some _, some t => if t.actionRequired then t.actionRequiredData else []
  | _, _ => []

/-- Model of `complete_checkout_post_payment_part`, continued (see above). -/
def completeCheckoutPostPaymentPart (db : DB) (checkout : Checkout)
    (channel : Channel) (payment : Option Payment) (txn : Option GatewayTxn)
    (orderData : OrderData) (ext : Ext) :
    Except Failure (Option Order × Bool × List (String × String)) × DB × List Eff :=
  let actionRequired := txnActionRequired payment txn
  let actionData := txnActionData payment txn
  let effs0 := if actionRequired then [Eff.releaseVoucherUsage orderData.voucher] else []
  if !actionRequired && !(isRefundOngoing payment ext) then
    match createOrder db checkout channel orderData ext with
    | (.error e, db2) =>
        (.error e, db2,
          effs0 ++ [Eff.releaseVoucherUsage orderData.voucher, Eff.refundOrVoid payment])
    | (.ok order, db2) =>
        let db3 := { db2 with checkoutExists := false }
        let markEffs :=
          if order.total.net.amount == 0 &&
              order.channel.orderMarkAsPaidStrategy == MarkAsPaidStrategy.paymentFlow
          then [Eff.markOrderAsPaid] else []
        (.ok (some order, actionRequired, actionData), db3,
          effs0 ++ [Eff.deleteCheckout] ++ markEffs)
  else
    (.ok (none, actionRequired, actionData), db, effs0)

/-- The third, re-locked phase of `complete_checkout_with_payment`: re-fetch
the checkout row; when it is gone, fall back to the order already created for
the token; otherwise run the post-payment part. -/
def completeCheckoutPaymentPhase3 (db : DB) (checkout : Checkout)
    (channel : Channel) (payment : Option Payment) (txn : Option GatewayTxn)
    (orderData : OrderData) (ext : Ext) :
    Except Failure (Option Order × Bool × List (String × String)) × DB × List Eff :=
  if !db.checkoutExists then
    match findOrderByToken db checkout.token with
    | some o => (.ok (some o, false, []), db, [])
    | none => (.error .orderDoesNotExist, db, [])
  else completeCheckoutPostPaymentPart db checkout channel payment txn orderData ext

/-- Model of `complete_checkout_with_payment`: phase 1 under the checkout row lock
(race fallback, pre-payment preparation, temporary stock reservations), phase
2 out of lock (gateway call, inactive-payment check), phase 3 re-locked
(post-payment materialization).  `env` is the interference of concurrent
attempts on the database between the unlock and the re-lock. -/
def completeCheckoutWithPayment (db : DB) (checkout : Checkout)
    (channel : Channel) (lines : List CheckoutLineInfo)
    (payment : Option Payment) (ext : Ext) (env : DB → DB) :
    Except Failure (Option Order × Bool × List (String × String)) × DB × List Eff :=
  if !db.checkoutExists then
    match findOrderByToken db checkout.token with
    | some o => (.ok (some o, false, []), db, [Eff.acquireCheckoutLock, Eff.releaseCheckoutLock])
    | none => (.error .orderDoesNotExist, db, [Eff.acquireCheckoutLock, Eff.releaseCheckoutLock])
  else
    match completeCheckoutPrePaymentPart checkout lines payment ext with
    | (.error e, effs1) =>
        (.error e, db, Eff.acquireCheckoutLock :: (effs1 ++ [Eff.releaseCheckoutLock]))
    | (.ok orderData, effs1) =>
        let rs := reserveStocksWithoutAvailabilityCheck ext.now ext.reserveDuration lines ext.stocks
        let lockEffs :=
          Eff.acquireCheckoutLock ::
            (effs1 ++ [Eff.reserveStocks rs, Eff.releaseCheckoutLock])
        let phase3 := fun (p : Option Payment) (t : Option GatewayTxn) (effs2 : List Eff) =>
          match completeCheckoutPaymentPhase3 (env db) checkout channel p t orderData ext with
          | (res, db3, effs3) =>
              (res, db3,
                lockEffs ++ effs2 ++
                  (Eff.acquireCheckoutLock :: (effs3 ++ [Eff.releaseCheckoutLock])))
        match payment with
        | none => phase3 none none []
        | some p =>
            match processPayment p orderData ext with
            | (.error e, effs2) => (.error e, db, lockEffs ++ effs2)
            | (.ok txn, effs2) =>
                if !ext.paymentActiveAfterCall then
                  (.error .inactivePayment, db,
                    lockEffs ++ effs2 ++ [Eff.refundOrVoid (some p)])
                else phase3 (some p) (some txn) effs2

/-- Model of `_increase_voucher_usage` (transaction flow): re-fetch the voucher under
lock; record per-customer usage first, then increase the usage counter when a
limit is set. -/
def increaseVoucherUsageEffs (voucherLookup : Option Voucher) : List Eff :=
  match voucherLookup with
  | none => []
  | some v =>
      (if v.applyOncePerCustomer then [Eff.addVoucherUsageByCustomer v] else []) ++
      (if v.usageLimit then [Eff.increaseVoucherUsage v] else [])

/-- Model of `_create_order_from_checkout` plus its wrapper `create_order_from_checkout`
(transaction-flow order materializer).  Voucher usage is increased in its own
short transaction before the checkout row lock is taken.  When the checkout
row is already gone, the order previously created for the token is returned.
Otherwise the order is created (status unfulfilled only when the channel
auto-confirms and a payment transaction exists), lines are built (the bulk
stock check may fail), stocks are allocated and gift cards added; an
`InsufficientStock` or `GiftCardNotApplicable` failure is answered by a
`release_voucher_usage` call and re-raised, rolling back the enclosing atomic
transaction (the database is left unchanged).  On success the checkout row is
deleted when `deleteCheckout` is set. -/
def transactionFlowOrder (checkout : Checkout) (channel : Channel)
    (infoVoucher : Option Voucher) (lines : List CheckoutLineInfo) (ext : Ext) : Order :=
  let orderLines := lines.map (fun li =>
    createLineForOrder li ext.productsTranslation ext.variantsTranslation
      ext.pricesEnteredWithTax)
  { checkoutToken := checkout.token
    status :=
      if channel.automaticallyConfirmAllNewOrders && checkout.hasPaymentTransactions
      then OrderStatus.unfulfilled
      else OrderStatus.unconfirmed
    origin := OrderOrigin.checkout
    channel := channel
    total := ext.taxedTotal
    undiscountedTotal :=
      (orderLines.map OrderLine.undiscountedTotalPrice).foldl (· + ·)
        (zeroTaxedMoney ext.taxedTotal.net.currency) + ext.shippingTotal
    discounts := handleCheckoutDiscount checkout
    lines := orderLines
    voucher := infoVoucher }

/-- Model of `create_order_from_checkout`, continued (see the doc comment above
`transactionFlowOrder`, the order row built by `_create_order_from_checkout`). -/
def createOrderFromCheckout (db : DB) (checkout : Checkout) (channel : Channel)
    (infoVoucher : Option Voucher) (lines : List CheckoutLineInfo) (ext : Ext)
    (deleteCheckout : Bool) : Except Failure Order × DB × List Eff :=
  let incEffs := if infoVoucher.isSome then increaseVoucherUsageEffs ext.voucherLookup else []
  if !db.checkoutExists then
    match findOrderByToken db checkout.token with
    | some o => (.ok o, db, incEffs)
    | none => (.error .orderDoesNotExist, db, incEffs)
  else
    let order := transactionFlowOrder checkout channel infoVoucher lines ext
    if !ext.linesStockOk then
      (.error .insufficientStock, db, incEffs ++ [Eff.releaseVoucherUsage infoVoucher])
    else if !ext.allocateOk then
      (.error .insufficientStock, db, incEffs ++ [Eff.releaseVoucherUsage infoVoucher])
    else if !ext.addGiftCardsOk then
      (.error .giftCardNotApplicable, db, incEffs ++ [Eff.releaseVoucherUsage infoVoucher])
    else
      (.ok order, { orders := order :: db.orders, checkoutExists := !deleteCheckout }, incEffs)

/-- Model of `_prepare_checkout_with_transactions`: billing address cleaning, the
authorize-coverage check (`CHECKOUT_NOT_FULLY_PAID` when the authorize status
is not full and the channel disallows unpaid orders), voucher-code
consistency, gift-card validation, the generic checkout preparation, and the
pre-order-creation tax hook.  Returns the failure raised, when any. -/
def prepareCheckoutWithTransactions (checkout : Checkout) (channel : Channel)
    (infoVoucher : Option Voucher) (ext : Ext) : Option Failure :=
  if !ext.billingAddressOk then some .validationError
  else if !checkout.authorizeStatusFull && !channel.allowUnpaidOrders then some .notFullyPaid
  else if checkout.voucherCode.isSome && infoVoucher.isNone then some .voucherNotApplicable
  else if !ext.giftCardsValid then some .giftCardNotApplicable
  else if !ext.prepareCheckoutOk then some .validationError
  else if !ext.preprocessTaxOk then some .taxError
  else none

/-- Model of `complete_checkout_with_transaction`: prepare the checkout, then create
the order from the checkout (deleting the checkout row).  The domain failures
are re-wrapped as validation errors at this boundary without changing their
class. -/
def completeCheckoutWithTransaction (db : DB) (checkout : Checkout)
    (channel : Channel) (infoVoucher : Option Voucher)
    (lines : List CheckoutLineInfo) (ext : Ext) :
    Except Failure Order × DB × List Eff :=
  match prepareCheckoutWithTransactions checkout channel infoVoucher ext with
  | some e => (.error e, db, [])
  | none => createOrderFromCheckout db checkout channel infoVoucher lines ext true

/-- The entry fork of `complete_checkout`: take the transaction flow when the
checkout has payment transactions, or the channel allows unpaid orders, or
the checkout total is zero and the channel's mark-as-paid strategy is the
transaction flow (Python parses the condition as
`transactions or allow_unpaid_orders or (checkout_is_zero and is_transaction_flow)`). -/
def takesTransactionFlow (checkout : Checkout) (channel : Channel) : Bool :=
  let checkoutIsZero := checkout.total.gross.amount == 0
  let isTransactionFlow :=
    channel.orderMarkAsPaidStrategy == MarkAsPaidStrategy.transactionFlow
  checkout.hasPaymentTransactions || channel.allowUnpaidOrders ||
    (checkoutIsZero && isTransactionFlow)

/-- Model of `complete_checkout`: dispatch on the entry fork; a transaction-flow
completion returns the order with `action_required = False` and empty action
data, the payment flow returns its own triple. -/
def completeCheckout (db : DB) (checkout : Checkout) (channel : Channel)
    (infoVoucher : Option Voucher) (lines : List CheckoutLineInfo)
    (payment : Option Payment) (ext : Ext) (env : DB → DB) :
    Except Failure (Option Order × Bool × List (String × String)) × DB × List Eff :=
  if takesTransactionFlow checkout channel then
    match completeCheckoutWithTransaction db checkout channel infoVoucher lines ext with
    | (.error e, db2, effs) => (.error e, db2, effs)
    | (.ok o, db2, effs) => (.ok (some o, false, []), db2, effs)
  else
    completeCheckoutWithPayment db checkout channel lines payment ext env

/-- Modelled from the spec: the voucher ledger (`increase_voucher_usage` /
`add_voucher_usage_by_customer` / `release_voucher_usage` of
`discount/utils.py`, which is outside this file).  §4.4: increasing usage adds
one use under a row lock; `release_voucher_usage` is the compensating action
that undoes a previous increment and safely no-ops on a null voucher.  The
increase call is only ever issued for a usage-limited voucher, and the
release correspondingly only decrements for a usage-limited voucher. -/
def effUsageDelta : Eff → Int
  | .increaseVoucherUsage _ => 1
  | .releaseVoucherUsage (some v) => if v.usageLimit then -1 else 0
  | _ => 0

/-- Net change of the voucher usage counter effected by a trace. -/
def usageDelta (effs : List Eff) : Int := (effs.map effUsageDelta).sum

@[simp] theorem usageDelta_nil : usageDelta [] = 0 := rfl

@[simp] theorem usageDelta_cons (e : Eff) (effs : List Eff) :
    usageDelta (e :: effs) = effUsageDelta e + usageDelta effs := by
  simp [usageDelta]

@[simp] theorem usageDelta_append (a b : List Eff) :
    usageDelta (a ++ b) = usageDelta a + usageDelta b := by
  simp [usageDelta]

/-! ## Sample data for concrete evaluations -/

def samplePricing : LinePricing :=
  { baseUnitPrice := ⟨4, "USD"⟩
    undiscountedBaseUnitPrice := ⟨5, "USD"⟩
    undiscountedBaseTotalPrice := ⟨10, "USD"⟩
    totalLinePrice := ⟨⟨8, "USD"⟩, ⟨8, "USD"⟩⟩
    unitPrice := ⟨⟨4, "USD"⟩, ⟨4, "USD"⟩⟩
    taxRate := 0 }

def sampleLineInfo : CheckoutLineInfo :=
  { line := ⟨1, 2⟩
    productId := 1
    variantId := 1
    productName := "P"
    variantName := "V"
    voucher := none
    hasPromotionDiscounts := false
    promotionDiscountReason := ""
    saleId := ""
    pricing := samplePricing }

def sampleVoucher : Voucher := ⟨"VC", true, false⟩

def sampleChannel : Channel :=
  { slug := "ch"
    isActive := true
    automaticallyConfirmAllNewOrders := true
    allowUnpaidOrders := false
    orderMarkAsPaidStrategy := MarkAsPaidStrategy.paymentFlow }

def sampleCheckout : Checkout :=
  { token := 7
    currency := "USD"
    voucherCode := some "VC"
    discountAmount := 3
    discountName := none
    translatedDiscountName := none
    total := ⟨⟨10, "USD"⟩, ⟨12, "USD"⟩⟩
    authorizeStatusFull := true
    hasPaymentTransactions := false
    taxExemption := false
    languageCode := "en" }

def sampleExt : Ext :=
  { voucherLookup := some sampleVoucher
    productsTranslation := []
    variantsTranslation := []
    linesStockOk := true
    giftCardsValid := true
    preprocessTaxOk := true
    prePaymentValidationOk := true
    billingAddressOk := true
    prepareCheckoutOk := true
    gatewayRaises := false
    gatewayTxn := ⟨true, "", false, [], none⟩
    paymentActiveAfterCall := true
    refundOngoing := false
    allocateOk := true
    addGiftCardsOk := true
    pricesEnteredWithTax := true
    taxedTotal := ⟨⟨10, "USD"⟩, ⟨12, "USD"⟩⟩
    shippingTotal := ⟨⟨0, "USD"⟩, ⟨0, "USD"⟩⟩
    userEmail := "c@example.com"
    now := 0
    reserveDuration := 60
    stocks := [⟨1, 1⟩] }

def sampleOrderData : OrderData :=
  { voucher := some sampleVoucher
    userEmail := "c@example.com"
    total := ⟨⟨0, "USD"⟩, ⟨0, "USD"⟩⟩
    undiscountedTotal := ⟨⟨0, "USD"⟩, ⟨0, "USD"⟩⟩
    lines := [] }

def sampleDB : DB := ⟨[], true⟩

def samplePayment : Payment := ⟨1, false, "gw"⟩

/-- The order data that `complete_checkout_pre_payment_part` computes for the
sample checkout with the single sample line. -/
def sampleOrderDataFull : OrderData :=
  { voucher := some sampleVoucher
    userEmail := "c@example.com"
    total := sampleExt.taxedTotal
    undiscountedTotal :=
      ([createLineForOrder sampleLineInfo [] [] true].map
        OrderLine.undiscountedTotalPrice).foldl (· + ·) (zeroTaxedMoney "USD") +
        sampleExt.shippingTotal
    lines := [createLineForOrder sampleLineInfo [] [] true] }

/-! ## Helper lemmas about the order materializers -/

theorem createOrder_ok_of_none {db : DB} {checkout : Checkout} {channel : Channel}
    {od : OrderData} {ext : Ext} {o : Order} {db2 : DB}
    (h1 : findOrderByToken db checkout.token = none)
    (h2 : createOrder db checkout channel od ext = (.ok o, db2)) :
    o = paymentFlowOrder checkout channel od ∧
    db2 = { db with orders := o :: db.orders } := by
  unfold createOrder at h2
  rw [h1] at h2
  by_cases ha : ext.allocateOk
  · by_cases hg : ext.addGiftCardsOk
    · simp only [ha, hg, Bool.not_true, Bool.false_eq_true, if_false,
        Prod.mk.injEq, Except.ok.injEq] at h2
      obtain ⟨ho, hdb⟩ := h2
      exact ⟨ho.symm, by rw [← hdb, ho]⟩
    · simp [ha, hg] at h2
  · simp [ha] at h2

theorem createOrder_error_classes {db : DB} {checkout : Checkout}
    {channel : Channel} {od : OrderData} {ext : Ext} {e : Failure} {db2 : DB}
    (h : createOrder db checkout channel od ext = (.error e, db2)) :
    (e = .insufficientStock ∨ e = .giftCardNotApplicable) ∧ db2 = db := by
  unfold createOrder at h
  rcases hf : findOrderByToken db checkout.token with - | o
  · rw [hf] at h
    by_cases ha : ext.allocateOk
    · by_cases hg : ext.addGiftCardsOk
      · simp [ha, hg] at h
      · simp only [ha, hg, Bool.not_true, Bool.not_false, Bool.false_eq_true, if_false,
          if_true, Prod.mk.injEq, Except.error.injEq] at h
        exact ⟨Or.inr h.1.symm, h.2.symm⟩
    · simp only [ha, Bool.not_false, if_true, Prod.mk.injEq, Except.error.injEq] at h
      exact ⟨Or.inl h.1.symm, h.2.symm⟩
  · rw [hf] at h
    simp at h

theorem createOrderFromCheckout_ok_of_exists {db : DB} {checkout : Checkout}
    {channel : Channel} {infoVoucher : Option Voucher}
    {lines : List CheckoutLineInfo} {ext : Ext} {dc : Bool} {o : Order}
    {db2 : DB} {effs : List Eff}
    (h1 : db.checkoutExists = true)
    (h2 : createOrderFromCheckout db checkout channel infoVoucher lines ext dc =
      (.ok o, db2, effs)) :
    o = transactionFlowOrder checkout channel infoVoucher lines ext ∧
    db2 = { orders := o :: db.orders, checkoutExists := !dc } := by
  unfold createOrderFromCheckout at h2
  rw [h1] at h2
  by_cases hs : ext.linesStockOk
  · by_cases ha : ext.allocateOk
    · by_cases hg : ext.addGiftCardsOk
      · simp only [hs, ha, hg, Bool.not_true, Bool.false_eq_true, if_false,
          Prod.mk.injEq, Except.ok.injEq] at h2
        obtain ⟨ho, hdb, -⟩ := h2
        exact ⟨ho.symm, by rw [← hdb, ho]⟩
      · simp [hs, ha, hg] at h2
    · simp [hs, ha] at h2
  · simp [hs] at h2

/-! ## Claims -/

/-- C7: Discount arithmetic.  For every order line built by
`_create_line_for_order`, the stored unit discount equals
`undiscounted_unit_price - unit_price`, taken gross when the channel's tax
configuration enters prices tax-inclusive and net otherwise, and the stored
`unit_discount_value` is that amount's scalar value — for every combination
of voucher and promotion discounts, since none of these fields depend on
them. -/
theorem createLineForOrder_discount_arithmetic
    (info : CheckoutLineInfo) (pt vt : List (Nat × String)) (tax : Bool) :
    (createLineForOrder info pt vt tax).unitDiscount =
      (if tax then
        ((createLineForOrder info pt vt tax).undiscountedUnitPrice -
          (createLineForOrder info pt vt tax).unitPrice).gross
       else
        ((createLineForOrder info pt vt tax).undiscountedUnitPrice -
          (createLineForOrder info pt vt tax).unitPrice).net) ∧
    (createLineForOrder info pt vt tax).unitDiscountValue =
      (createLineForOrder info pt vt tax).unitDiscount.amount := by
  unfold createLineForOrder
  cases tax <;> simp

/-- C9: Idempotent translation fallback.  For every order line: a translated
product (or variant) name equal to the canonical one is stored as the empty
string; a missing translation is stored as the empty string; hence the stored
translated name is never a non-empty duplicate of the canonical name. -/
theorem createLineForOrder_translation_fallback
    (info : CheckoutLineInfo) (pt vt : List (Nat × String)) (tax : Bool) :
    (lookupTranslation pt info.productId = info.productName →
      (createLineForOrder info pt vt tax).translatedProductName = "") ∧
    (lookupTranslation vt info.variantId = info.variantName →
      (createLineForOrder info pt vt tax).translatedVariantName = "") ∧
    (pt.find? (fun p => p.1 == info.productId) = none →
      (createLineForOrder info pt vt tax).translatedProductName = "") ∧
    (vt.find? (fun p => p.1 == info.variantId) = none →
      (createLineForOrder info pt vt tax).translatedVariantName = "") ∧
    ((createLineForOrder info pt vt tax).translatedProductName = "" ∨
      (createLineForOrder info pt vt tax).translatedProductName ≠
        (createLineForOrder info pt vt tax).productName) ∧
    ((createLineForOrder info pt vt tax).translatedVariantName = "" ∨
      (createLineForOrder info pt vt tax).translatedVariantName ≠
        (createLineForOrder info pt vt tax).variantName) := by
  refine ⟨?_, ?_, ?_, ?_, ?_, ?_⟩
  · intro h; unfold createLineForOrder; simp [h]
  · intro h; unfold createLineForOrder; simp [h]
  · intro h; unfold createLineForOrder; simp [lookupTranslation, h]
  · intro h; unfold createLineForOrder; simp [lookupTranslation, h]
  · unfold createLineForOrder
    by_cases h : lookupTranslation pt info.productId = info.productName
    · simp [h]
    · simp only [beq_iff_eq, if_neg h]
      exact Or.inr h
  · unfold createLineForOrder
    by_cases h : lookupTranslation vt info.variantId = info.variantName
    · simp [h]
    · simp only [beq_iff_eq, if_neg h]
      exact Or.inr h

/-- Witness for C9: at a concrete line whose product translation equals the
canonical name and whose variant translation is missing, both stored
translated names are empty. -/
theorem createLineForOrder_translation_fallback_witness :
    (createLineForOrder sampleLineInfo [(1, "P")] [] true).translatedProductName = "" ∧
    (createLineForOrder sampleLineInfo [(1, "P")] [] true).translatedVariantName = "" :=
  ⟨(createLineForOrder_translation_fallback sampleLineInfo [(1, "P")] [] true).1 (by decide),
   (createLineForOrder_translation_fallback sampleLineInfo [(1, "P")] [] true).2.2.2.1 (by decide)⟩

/-- C2: Entry fork of `complete_checkout`.  The transaction-flow path (A) is
taken exactly when the checkout has payment transactions, or the channel
allows unpaid orders, or the checkout's gross total is zero and the channel's
mark-as-paid strategy is the transaction flow; otherwise the payment-flow
path (B) is taken, and a successful path-(A) completion reports
`action_required = False` with empty action data. -/
theorem completeCheckout_entry_fork (db : DB) (checkout : Checkout)
    (channel : Channel) (infoVoucher : Option Voucher)
    (lines : List CheckoutLineInfo) (payment : Option Payment) (ext : Ext)
    (env : DB → DB) :
    (takesTransactionFlow checkout channel = true ↔
      (checkout.hasPaymentTransactions = true ∨ channel.allowUnpaidOrders = true ∨
        (checkout.total.gross.amount = 0 ∧
          channel.orderMarkAsPaidStrategy = MarkAsPaidStrategy.transactionFlow))) ∧
    (takesTransactionFlow checkout channel = false →
      completeCheckout db checkout channel infoVoucher lines payment ext env =
        completeCheckoutWithPayment db checkout channel lines payment ext env) ∧
    (takesTransactionFlow checkout channel = true →
      completeCheckout db checkout channel infoVoucher lines payment ext env =
        (match completeCheckoutWithTransaction db checkout channel infoVoucher lines ext with
         | (.error e, db2, effs) => (.error e, db2, effs)
         | (.ok o, db2, effs) => (.ok (some o, false, []), db2, effs))) ∧
    (∀ o ar ad db2 effs, takesTransactionFlow checkout channel = true →
      completeCheckout db checkout channel infoVoucher lines payment ext env =
        (.ok (some o, ar, ad), db2, effs) → ar = false ∧ ad = []) := by
  refine ⟨?_, ?_, ?_, ?_⟩
  · unfold takesTransactionFlow
    simp [Bool.or_eq_true, Bool.and_eq_true, beq_iff_eq, or_assoc]
  · intro h
    unfold completeCheckout
    simp [h]
  · intro h
    unfold completeCheckout
    simp [h]
  · intro o ar ad db2 effs h heq
    unfold completeCheckout at heq
    rw [if_pos h] at heq
    rcases hx : completeCheckoutWithTransaction db checkout channel infoVoucher lines ext with
      ⟨res, db3, effs3⟩
    rw [hx] at heq
    cases res with
    | error e => simp at heq
    | ok o2 =>
        simp only [Prod.mk.injEq, Except.ok.injEq] at heq
        obtain ⟨h1, -, -⟩ := heq
        obtain ⟨-, h2, h3⟩ := h1
        exact ⟨h2.symm, h3.symm⟩

/-- C6: Order status decision.  A newly created payment-flow order
(`_create_order`) is unfulfilled exactly when the channel auto-confirms new
orders; a newly created transaction-flow order (`_create_order_from_checkout`)
is unfulfilled exactly when the channel auto-confirms and the checkout has at
least one payment transaction; in every other case the status is
unconfirmed. -/
theorem order_status_decision (db : DB) (checkout : Checkout) (channel : Channel)
    (od : OrderData) (ext : Ext) (infoVoucher : Option Voucher)
    (lines : List CheckoutLineInfo) (o : Order) (db2 : DB) (effs : List Eff) :
    (findOrderByToken db checkout.token = none →
      createOrder db checkout channel od ext = (.ok o, db2) →
      (o.status = OrderStatus.unfulfilled ↔
        channel.automaticallyConfirmAllNewOrders = true) ∧
      (o.status = OrderStatus.unconfirmed ↔
        channel.automaticallyConfirmAllNewOrders = false)) ∧
    (db.checkoutExists = true →
      createOrderFromCheckout db checkout channel infoVoucher lines ext true =
        (.ok o, db2, effs) →
      (o.status = OrderStatus.unfulfilled ↔
        (channel.automaticallyConfirmAllNewOrders = true ∧
          checkout.hasPaymentTransactions = true)) ∧
      (o.status = OrderStatus.unconfirmed ↔
        ¬(channel.automaticallyConfirmAllNewOrders = true ∧
          checkout.hasPaymentTransactions = true))) := by
  constructor
  · intro h1 h2
    obtain ⟨ho, -⟩ := createOrder_ok_of_none h1 h2
    subst ho
    unfold paymentFlowOrder
    by_cases hc : channel.automaticallyConfirmAllNewOrders <;> simp [hc]
  · intro h1 h2
    obtain ⟨ho, -⟩ := createOrderFromCheckout_ok_of_exists h1 h2
    subst ho
    unfold transactionFlowOrder
    by_cases hc : channel.automaticallyConfirmAllNewOrders <;>
      by_cases ht : checkout.hasPaymentTransactions <;> simp [hc, ht]

/-- Witness for C6: a concrete payment-flow creation on an auto-confirming
channel yields an unfulfilled order, and a concrete transaction-flow creation
without payment transactions yields an unconfirmed order. -/
theorem order_status_decision_witness :
    ((paymentFlowOrder sampleCheckout sampleChannel sampleOrderData).status =
      OrderStatus.unfulfilled) ∧
    ((transactionFlowOrder sampleCheckout sampleChannel (some sampleVoucher) []
        sampleExt).status = OrderStatus.unconfirmed) := by
  constructor
  · exact ((order_status_decision sampleDB sampleCheckout sampleChannel
      sampleOrderData sampleExt (some sampleVoucher) []
      (paymentFlowOrder sampleCheckout sampleChannel sampleOrderData)
      { sampleDB with orders := [paymentFlowOrder sampleCheckout sampleChannel sampleOrderData] }
      []).1 (by decide) (by rfl)).1.mpr (by decide)
  · exact ((order_status_decision sampleDB sampleCheckout sampleChannel
      sampleOrderData sampleExt (some sampleVoucher) []
      (transactionFlowOrder sampleCheckout sampleChannel (some sampleVoucher) [] sampleExt)
      { orders := [transactionFlowOrder sampleCheckout sampleChannel (some sampleVoucher) [] sampleExt],
        checkoutExists := false }
      [Eff.increaseVoucherUsage sampleVoucher]).2
      (by decide) (by rfl)).2.mpr (by decide)

/-- C10: In both materialization flows an order-level discount record is
created exactly when the checkout's discount is non-zero, and then it is a
single record of type `VOUCHER` with value type `FIXED` carrying the
checkout's discount amount. -/
theorem checkout_discount_record (checkout : Checkout) (channel : Channel)
    (od : OrderData) (infoVoucher : Option Voucher)
    (lines : List CheckoutLineInfo) (ext : Ext) :
    (handleCheckoutDiscount checkout = [] ↔ checkout.discountAmount = 0) ∧
    (checkout.discountAmount ≠ 0 →
      handleCheckoutDiscount checkout =
        [{ type := DiscountType.voucher
           valueType := DiscountValueType.fixed
           value := checkout.discountAmount
           name := checkout.discountName
           translatedName := checkout.translatedDiscountName
           currency := checkout.currency
           amountValue := checkout.discountAmount }]) ∧
    (paymentFlowOrder checkout channel od).discounts = handleCheckoutDiscount checkout ∧
    (transactionFlowOrder checkout channel infoVoucher lines ext).discounts =
      handleCheckoutDiscount checkout := by
  refine ⟨?_, ?_, rfl, rfl⟩
  · unfold handleCheckoutDiscount Money.toBool Checkout.discount
    by_cases h : checkout.discountAmount = 0 <;> simp [h]
  · intro h
    unfold handleCheckoutDiscount Money.toBool Checkout.discount
    simp [h]

/-- Witness for C10: the sample checkout has a discount of 3, producing the
single fixed voucher discount record. -/
theorem checkout_discount_record_witness :
    handleCheckoutDiscount sampleCheckout =
      [{ type := DiscountType.voucher
         valueType := DiscountValueType.fixed
         value := (3 : Amount)
         name := none
         translatedName := none
         currency := "USD"
         amountValue := (3 : Amount) }] :=
  (checkout_discount_record sampleCheckout sampleChannel sampleOrderData
    (some sampleVoucher) [] sampleExt).2.1 (by decide)

/-- C5: Zero-total auto-pay.  Whenever the payment flow's post-payment part
returns an order, a mark-as-paid call is issued exactly when the order's
total (net) amount is zero and the order's channel mark-as-paid strategy is
the payment flow; under the transaction-flow strategy this call site never
marks the order paid. -/
theorem zero_total_auto_pay (db : DB) (checkout : Checkout) (channel : Channel)
    (payment : Option Payment) (txn : Option GatewayTxn) (od : OrderData)
    (ext : Ext) (o : Order) (ar : Bool) (ad : List (String × String))
    (db2 : DB) (effs : List Eff) :
    completeCheckoutPostPaymentPart db checkout channel payment txn od ext =
      (.ok (some o, ar, ad), db2, effs) →
    (Eff.markOrderAsPaid ∈ effs ↔
      (o.total.net.amount = 0 ∧
        o.channel.orderMarkAsPaidStrategy = MarkAsPaidStrategy.paymentFlow)) := by
  intro h
  unfold completeCheckoutPostPaymentPart at h
  by_cases har : txnActionRequired payment txn
  · simp [har] at h
  · by_cases hro : isRefundOngoing payment ext
    · simp [har, hro] at h
    · simp only [har, hro, Bool.not_false, Bool.and_self, if_true, if_false,
        Bool.false_eq_true] at h
      rcases hc : createOrder db checkout channel od ext with ⟨res, db3⟩
      rw [hc] at h
      cases res with
      | error e => simp at h
      | ok order =>
          simp only [Prod.mk.injEq, Except.ok.injEq, Option.some.injEq,
            List.nil_append] at h
          obtain ⟨⟨ho, -, -⟩, -, heff⟩ := h
          subst ho
          rw [← heff]
          by_cases hz : order.total.net.amount = 0
          · by_cases hs : order.channel.orderMarkAsPaidStrategy = MarkAsPaidStrategy.paymentFlow
            · simp [hz, hs]
            · have hb : (order.channel.orderMarkAsPaidStrategy ==
                  MarkAsPaidStrategy.paymentFlow) = false := by simpa using hs
              simp [hb, hs]
          · have hb : (order.total.net.amount == 0) = false := by simpa using hz
            simp [hb, hz]

/-- Witness for C5: a zero-total order created on a payment-flow channel is
marked as paid upon creation. -/
theorem zero_total_auto_pay_witness :
    Eff.markOrderAsPaid ∈ ([Eff.deleteCheckout, Eff.markOrderAsPaid] : List Eff) :=
  (zero_total_auto_pay sampleDB sampleCheckout sampleChannel none none sampleOrderData
    sampleExt (paymentFlowOrder sampleCheckout sampleChannel sampleOrderData) false []
    { orders := [paymentFlowOrder sampleCheckout sampleChannel sampleOrderData],
      checkoutExists := false }
    [Eff.deleteCheckout, Eff.markOrderAsPaid] (by rfl)).mpr ⟨rfl, rfl⟩

/-- C4: Post-payment compensation.  Every failure of the payment flow's
post-payment part is an `InsufficientStock` or gift-card failure of order
materialization, and the trace then contains a voucher-usage release and a
refund-or-void on the payment before the error is propagated; no order is
returned. -/
theorem post_payment_compensation (db : DB) (checkout : Checkout)
    (channel : Channel) (payment : Option Payment) (txn : Option GatewayTxn)
    (od : OrderData) (ext : Ext) (e : Failure) (db2 : DB) (effs : List Eff) :
    completeCheckoutPostPaymentPart db checkout channel payment txn od ext =
      (.error e, db2, effs) →
    (e = .insufficientStock ∨ e = .giftCardNotApplicable) ∧
    Eff.releaseVoucherUsage od.voucher ∈ effs ∧
    Eff.refundOrVoid payment ∈ effs := by
  intro h
  unfold completeCheckoutPostPaymentPart at h
  by_cases har : txnActionRequired payment txn
  · simp [har] at h
  · by_cases hro : isRefundOngoing payment ext
    · simp [har, hro] at h
    · simp only [har, hro, Bool.not_false, Bool.and_self, if_true, if_false,
        Bool.false_eq_true] at h
      rcases hc : createOrder db checkout channel od ext with ⟨res, db3⟩
      rw [hc] at h
      cases res with
      | ok order => simp at h
      | error e2 =>
          simp only [Prod.mk.injEq, Except.error.injEq, List.nil_append] at h
          obtain ⟨he, -, heff⟩ := h
          rw [← heff, ← he]
          refine ⟨(createOrder_error_classes hc).1, ?_, ?_⟩ <;> simp

/-- Witness for C4: a concrete stock-allocation failure during post-payment
materialization is compensated by a voucher release and a refund-or-void. -/
theorem post_payment_compensation_witness :
    (Failure.insufficientStock = Failure.insufficientStock ∨
      Failure.insufficientStock = Failure.giftCardNotApplicable) ∧
    Eff.releaseVoucherUsage (some sampleVoucher) ∈
      ([Eff.releaseVoucherUsage (some sampleVoucher),
        Eff.refundOrVoid (some samplePayment)] : List Eff) ∧
    Eff.refundOrVoid (some samplePayment) ∈
      ([Eff.releaseVoucherUsage (some sampleVoucher),
        Eff.refundOrVoid (some samplePayment)] : List Eff) :=
  post_payment_compensation sampleDB sampleCheckout sampleChannel
    (some samplePayment) none sampleOrderData
    { sampleExt with allocateOk := false } Failure.insufficientStock sampleDB
    [Eff.releaseVoucherUsage (some sampleVoucher),
      Eff.refundOrVoid (some samplePayment)] (by rfl)

def sampleChannelUnpaid : Channel := { sampleChannel with allowUnpaidOrders := true }

/-- Witness for C2: a channel with everything unpaid-disallowed, no payment
transactions and a non-zero total takes the payment flow; a channel allowing
unpaid orders takes the transaction flow and reports no required action. -/
theorem completeCheckout_entry_fork_witness :
    (completeCheckout sampleDB sampleCheckout sampleChannel (some sampleVoucher) [] none
        sampleExt id =
      completeCheckoutWithPayment sampleDB sampleCheckout sampleChannel [] none sampleExt id) ∧
    (false = false ∧ ([] : List (String × String)) = []) :=
  ⟨(completeCheckout_entry_fork sampleDB sampleCheckout sampleChannel (some sampleVoucher)
      [] none sampleExt id).2.1 (by decide),
   (completeCheckout_entry_fork sampleDB sampleCheckout sampleChannelUnpaid (some sampleVoucher)
      [] none sampleExt id).2.2.2
      (transactionFlowOrder sampleCheckout sampleChannelUnpaid (some sampleVoucher) [] sampleExt)
      false []
      { orders := [transactionFlowOrder sampleCheckout sampleChannelUnpaid
          (some sampleVoucher) [] sampleExt],
        checkoutExists := false }
      [Eff.increaseVoucherUsage sampleVoucher]
      (by decide) (by rfl)⟩

/-- C8 (amended): before the checkout lock is released for payment
processing, a `Reservation` expiring `RESERVE_DURATION` seconds from now and
carrying the line's quantity is created for every checkout line whose variant
has a stock row among the fetched country/channel stocks, with no
availability re-check. -/
theorem reserve_stocks_before_unlock (now dur : Nat)
    (lines : List CheckoutLineInfo) (stocks : List Stock) (db : DB)
    (checkout : Checkout) (channel : Channel) (payment : Option Payment)
    (ext : Ext) (env : DB → DB) (od : OrderData) (effs1 : List Eff) :
    (∀ line ∈ lines, ∀ st, stockForVariant stocks line.variantId = some st →
      ∃ r ∈ reserveStocksWithoutAvailabilityCheck now dur lines stocks,
        r.checkoutLineId = line.line.id ∧ r.quantityReserved = line.line.quantity ∧
        r.reservedUntil = now + dur ∧ r.stockId = st.id) ∧
    (db.checkoutExists = true →
      completeCheckoutPrePaymentPart checkout lines payment ext = (.ok od, effs1) →
      ∃ rest, (completeCheckoutWithPayment db checkout channel lines payment ext env).2.2 =
        Eff.acquireCheckoutLock ::
          (effs1 ++ (Eff.reserveStocks (reserveStocksWithoutAvailabilityCheck ext.now
            ext.reserveDuration lines ext.stocks) :: Eff.releaseCheckoutLock :: rest))) := by
  constructor
  · intro line hline st hst
    refine ⟨⟨line.line.quantity, now + dur, st.id, line.line.id⟩, ?_, rfl, rfl, rfl, rfl⟩
    unfold reserveStocksWithoutAvailabilityCheck
    rw [List.mem_filterMap]
    exact ⟨line, hline, by rw [hst]; rfl⟩
  · intro hdb hpre
    unfold completeCheckoutWithPayment
    rw [hdb]
    simp only [Bool.not_true, Bool.false_eq_true, if_false, hpre]
    rcases payment with - | p
    · refine ⟨Eff.acquireCheckoutLock ::
        ((completeCheckoutPaymentPhase3 (env db) checkout channel none none od ext).2.2 ++
          [Eff.releaseCheckoutLock]), ?_⟩
      simp
    · dsimp only
      rcases hpp : processPayment p od ext with ⟨res2, effs2⟩
      cases res2 with
      | error e => exact ⟨effs2, by simp⟩
      | ok txn =>
          by_cases hact : ext.paymentActiveAfterCall
          · simp only [hact, Bool.not_true, Bool.false_eq_true, if_false]
            refine ⟨effs2 ++ (Eff.acquireCheckoutLock ::
              ((completeCheckoutPaymentPhase3 (env db) checkout channel (some p) (some txn)
                od ext).2.2 ++ [Eff.releaseCheckoutLock])), ?_⟩
            simp
          · have hact2 : ext.paymentActiveAfterCall = false := by simpa using hact
            simp only [hact2, Bool.not_false, if_true]
            exact ⟨effs2 ++ [Eff.refundOrVoid (some p)], by simp⟩

/-- Witness for C8 (amended): a concrete stocked line gets its reservation,
and a concrete successful pre-payment phase places the reservation effect
inside the locked section of the trace. -/
theorem reserve_stocks_before_unlock_witness :
    (∃ r ∈ reserveStocksWithoutAvailabilityCheck 0 60 [sampleLineInfo] [⟨1, 1⟩],
      r.checkoutLineId = sampleLineInfo.line.id ∧
      r.quantityReserved = sampleLineInfo.line.quantity ∧
      r.reservedUntil = 0 + 60 ∧ r.stockId = (1 : Nat)) ∧
    (∃ rest, (completeCheckoutWithPayment sampleDB sampleCheckout sampleChannel
        [sampleLineInfo] none sampleExt id).2.2 =
      Eff.acquireCheckoutLock ::
        ([Eff.increaseVoucherUsage sampleVoucher] ++
          (Eff.reserveStocks (reserveStocksWithoutAvailabilityCheck sampleExt.now
            sampleExt.reserveDuration [sampleLineInfo] sampleExt.stocks) ::
            Eff.releaseCheckoutLock :: rest))) := by
  constructor
  · exact (reserve_stocks_before_unlock 0 60 [sampleLineInfo] [⟨1, 1⟩] sampleDB
      sampleCheckout sampleChannel none sampleExt id sampleOrderData
      [Eff.increaseVoucherUsage sampleVoucher]).1 sampleLineInfo (by decide) ⟨1, 1⟩
      (by decide)
  · exact (reserve_stocks_before_unlock 0 60 [sampleLineInfo] [⟨1, 1⟩] sampleDB
      sampleCheckout sampleChannel none sampleExt id
      sampleOrderDataFull [Eff.increaseVoucherUsage sampleVoucher]).2
      (by decide) (by rfl)

/-- Counterexample for C8 as stated: a checkout line whose variant has no
stock row among the fetched stocks gets no reservation at all, so a
reservation is not created for every checkout line. -/
theorem reserve_stocks_counterexample :
    ¬ ∃ r ∈ reserveStocksWithoutAvailabilityCheck 0 60
        [{ sampleLineInfo with variantId := 2 }] [⟨5, 1⟩],
      r.checkoutLineId = sampleLineInfo.line.id := by decide

theorem countOrdersWithToken_eq_zero {db : DB} {tok : Nat}
    (h : findOrderByToken db tok = none) : countOrdersWithToken db tok = 0 := by
  unfold countOrdersWithToken
  rw [List.length_eq_zero, List.filter_eq_nil_iff]
  unfold findOrderByToken at h
  rw [List.find?_eq_none] at h
  exact h

theorem countOrdersWithToken_cons (o : Order) (l : List Order) (c1 c2 : Bool) (t : Nat) :
    countOrdersWithToken ⟨o :: l, c1⟩ t =
      countOrdersWithToken ⟨l, c2⟩ t + (if o.checkoutToken == t then 1 else 0) := by
  unfold countOrdersWithToken
  simp only [List.filter_cons]
  by_cases h : (o.checkoutToken == t) = true
  · simp [h]
  · simp [h]

/-- C1: At most one order per checkout token.  The payment-flow materializer
looks the order up by checkout token first and returns it unchanged without
touching the database; it never takes a database holding at most one order
per token to one holding two.  A transaction-flow completion or a
payment-flow completion that finds the checkout row already deleted returns
the order previously created for its token instead of erroring (in the
payment flow, in both the first and the re-locked phase), and the
transaction-flow materializer preserves at-most-one-per-token given that an
order for a live checkout's token does not yet exist. -/
theorem order_per_token_idempotency (db : DB) (checkout : Checkout)
    (channel : Channel) (od : OrderData) (ext : Ext)
    (infoVoucher : Option Voucher) (lines : List CheckoutLineInfo)
    (payment : Option Payment) (txn : Option GatewayTxn) (env : DB → DB)
    (o : Order) (t : Nat) :
    (findOrderByToken db checkout.token = some o →
      createOrder db checkout channel od ext = (.ok o, db)) ∧
    (countOrdersWithToken db t ≤ 1 →
      countOrdersWithToken (createOrder db checkout channel od ext).2 t ≤ 1) ∧
    (db.checkoutExists = false → findOrderByToken db checkout.token = some o →
      createOrderFromCheckout db checkout channel infoVoucher lines ext true =
        (.ok o, db,
          if infoVoucher.isSome then increaseVoucherUsageEffs ext.voucherLookup else [])) ∧
    (db.checkoutExists = false → findOrderByToken db checkout.token = some o →
      completeCheckoutWithPayment db checkout channel lines payment ext env =
        (.ok (some o, false, []), db,
          [Eff.acquireCheckoutLock, Eff.releaseCheckoutLock])) ∧
    (db.checkoutExists = false → findOrderByToken db checkout.token = some o →
      completeCheckoutPaymentPhase3 db checkout channel payment txn od ext =
        (.ok (some o, false, []), db, [])) ∧
    ((db.checkoutExists = true → countOrdersWithToken db checkout.token = 0) →
      countOrdersWithToken db t ≤ 1 →
      countOrdersWithToken
        (createOrderFromCheckout db checkout channel infoVoucher lines ext true).2.1 t ≤ 1) := by
  refine ⟨?_, ?_, ?_, ?_, ?_, ?_⟩
  · intro h
    unfold createOrder
    rw [h]
  · intro hc
    unfold createOrder
    rcases hf : findOrderByToken db checkout.token with - | o2
    · by_cases ha : ext.allocateOk
      · by_cases hg : ext.addGiftCardsOk
        · simp only [ha, hg, Bool.not_true, Bool.false_eq_true, if_false]
          rcases db with ⟨orders, ce⟩
          rw [countOrdersWithToken_cons _ _ _ ce]
          by_cases ht : ((paymentFlowOrder checkout channel od).checkoutToken == t) = true
          · have h0 : countOrdersWithToken ⟨orders, ce⟩ t = 0 := by
              apply countOrdersWithToken_eq_zero
              have : checkout.token = t := by simpa using ht
              rw [← this]
              exact hf
            rw [ht] at *
            simp [h0, ht]
          · simp only [ht, if_false]
            simpa using hc
        · simpa [ha, hg] using hc
      · simpa [ha] using hc
    · simpa using hc
  · intro h1 h2
    unfold createOrderFromCheckout
    rw [h1, h2]
    rfl
  · intro h1 h2
    unfold completeCheckoutWithPayment
    rw [h1, h2]
    rfl
  · intro h1 h2
    unfold completeCheckoutPaymentPhase3
    rw [h1, h2]
    rfl
  · intro hinv hc
    unfold createOrderFromCheckout
    rcases hce : db.checkoutExists with - | -
    · rcases hf : findOrderByToken db checkout.token with - | o2 <;> simp [hf, hc]
    · by_cases hs : ext.linesStockOk
      · by_cases ha : ext.allocateOk
        · by_cases hg : ext.addGiftCardsOk
          · simp only [hs, ha, hg, Bool.not_true, Bool.false_eq_true, if_false, if_true,
              Bool.not_false]
            rcases db with ⟨orders, ce⟩
            rw [countOrdersWithToken_cons _ _ _ ce]
            by_cases ht :
                ((transactionFlowOrder checkout channel infoVoucher lines ext).checkoutToken
                  == t) = true
            · have htt : checkout.token = t := by simpa using ht
              have h0 : countOrdersWithToken ⟨orders, ce⟩ t = 0 := by
                rw [← htt]
                exact hinv (by simpa using hce)
              simp [h0, ht]
            · simp only [ht, if_false]
              simpa using hc
          · simpa [hs, ha, hg] using hc
        · simpa [hs, ha] using hc
      · simpa [hs] using hc

/-- The database seen by an attempt that lost the race: the checkout row is
gone and the order for its token (7) already exists. -/
def sampleOrder : Order := paymentFlowOrder sampleCheckout sampleChannel sampleOrderData

def sampleDBRace : DB := ⟨[sampleOrder], false⟩

/-- Witness for C1 at the concrete race database: every fallback returns the
existing order for token 7, nothing is created, and the uniqueness bound is
preserved. -/
theorem order_per_token_idempotency_witness :
    (createOrder sampleDBRace sampleCheckout sampleChannel sampleOrderData sampleExt =
      (.ok sampleOrder, sampleDBRace)) ∧
    countOrdersWithToken
      (createOrder sampleDBRace sampleCheckout sampleChannel sampleOrderData sampleExt).2 7 ≤ 1 ∧
    (createOrderFromCheckout sampleDBRace sampleCheckout sampleChannel (some sampleVoucher)
        [] sampleExt true =
      (.ok sampleOrder, sampleDBRace, [Eff.increaseVoucherUsage sampleVoucher])) ∧
    (completeCheckoutWithPayment sampleDBRace sampleCheckout sampleChannel [] none
        sampleExt id =
      (.ok (some sampleOrder, false, []), sampleDBRace,
        [Eff.acquireCheckoutLock, Eff.releaseCheckoutLock])) ∧
    (completeCheckoutPaymentPhase3 sampleDBRace sampleCheckout sampleChannel none none
        sampleOrderData sampleExt =
      (.ok (some sampleOrder, false, []), sampleDBRace, [])) ∧
    countOrdersWithToken
      (createOrderFromCheckout sampleDBRace sampleCheckout sampleChannel (some sampleVoucher)
        [] sampleExt true).2.1 7 ≤ 1 := by
  have h := order_per_token_idempotency sampleDBRace sampleCheckout sampleChannel
    sampleOrderData sampleExt (some sampleVoucher) [] none none id sampleOrder 7
  exact ⟨h.1 (by rfl), h.2.1 (by decide), h.2.2.1 (by rfl) (by rfl),
    h.2.2.2.1 (by rfl) (by rfl), h.2.2.2.2.1 (by rfl) (by rfl),
    h.2.2.2.2.2 (by decide) (by decide)⟩

theorem usageDelta_release_some {v : Voucher} (hu : v.usageLimit = true) :
    usageDelta [Eff.releaseVoucherUsage (some v)] = -1 := by
  simp [usageDelta, effUsageDelta, hu]

theorem usageDelta_incEffs {v : Voucher} (hu : v.usageLimit = true) :
    usageDelta
      ((if v.usageLimit then [Eff.increaseVoucherUsage v] else []) ++
        (if v.applyOncePerCustomer then [Eff.addVoucherUsageByCustomer v] else [])) = 1 := by
  rw [usageDelta_append, if_pos hu]
  by_cases h : v.applyOncePerCustomer <;> simp [h, usageDelta, effUsageDelta]

theorem prepareOrderData_usage {checkout : Checkout} {lines : List CheckoutLineInfo}
    {ext : Ext} {v : Voucher}
    (hv : ext.voucherLookup = some v) (hu : v.usageLimit = true) :
    (∀ od effs, prepareOrderData checkout lines ext = (.ok od, effs) →
      od.voucher = some v ∧ usageDelta effs = 1) ∧
    (∀ e effs, prepareOrderData checkout lines ext = (.error e, effs) →
      usageDelta effs = 0) := by
  have hpv : processVoucherDataForOrder checkout ext.voucherLookup =
      (.ok (some v),
        (if v.usageLimit then [Eff.increaseVoucherUsage v] else []) ++
          (if v.applyOncePerCustomer then [Eff.addVoucherUsageByCustomer v] else [])) := by
    rw [hv]
    unfold processVoucherDataForOrder
    simp
  constructor
  · intro od effs h
    unfold prepareOrderData at h
    rw [hpv] at h
    by_cases h1 : ext.linesStockOk
    · by_cases h2 : ext.giftCardsValid
      · by_cases h3 : ext.preprocessTaxOk
        · simp only [h1, h2, h3, Bool.not_true, Bool.false_eq_true, if_false, if_true,
            Prod.mk.injEq, Except.ok.injEq] at h
          obtain ⟨hod, heffs⟩ := h
          exact ⟨by rw [← hod], by rw [← heffs]; exact usageDelta_incEffs hu⟩
        · simp [h1, h2, h3] at h
      · simp [h1, h2] at h
    · simp [h1] at h
  · intro e effs h
    unfold prepareOrderData at h
    rw [hpv] at h
    by_cases h1 : ext.linesStockOk
    · by_cases h2 : ext.giftCardsValid
      · by_cases h3 : ext.preprocessTaxOk
        · simp [h1, h2, h3] at h
        · simp only [h1, h2, h3, Bool.not_true, Bool.not_false, Bool.false_eq_true,
            if_false, if_true, Prod.mk.injEq, Except.error.injEq] at h
          obtain ⟨-, heffs⟩ := h
          rw [← heffs, usageDelta_append, usageDelta_incEffs hu,
            usageDelta_release_some hu]
          decide
      · simp only [h1, h2, Bool.not_true, Bool.not_false, Bool.false_eq_true, if_false,
          if_true, Prod.mk.injEq, Except.error.injEq] at h
        obtain ⟨-, heffs⟩ := h
        rw [← heffs]
        rfl
    · simp only [h1, Bool.not_false, if_true, Prod.mk.injEq, Except.error.injEq] at h
      obtain ⟨-, heffs⟩ := h
      rw [← heffs]
      rfl

theorem prePaymentPart_usage {checkout : Checkout} {lines : List CheckoutLineInfo}
    {payment : Option Payment} {ext : Ext} {v : Voucher}
    (hv : ext.voucherLookup = some v) (hu : v.usageLimit = true) :
    (∀ od effs, completeCheckoutPrePaymentPart checkout lines payment ext =
        (.ok od, effs) → od.voucher = some v ∧ usageDelta effs = 1) ∧
    (∀ e effs, completeCheckoutPrePaymentPart checkout lines payment ext =
        (.error e, effs) → usageDelta effs = 0) := by
  obtain ⟨hok, herr⟩ := @prepareOrderData_usage checkout lines ext v hv hu
  constructor
  · intro od effs h
    unfold completeCheckoutPrePaymentPart at h
    by_cases h0 : ext.prePaymentValidationOk
    · simp only [h0, Bool.not_true, Bool.false_eq_true, if_false] at h
      rcases hp : prepareOrderData checkout lines ext with ⟨res1, effs1⟩
      rw [hp] at h
      cases res1 with
      | error e1 => simp at h
      | ok od1 =>
          simp only [Prod.mk.injEq, Except.ok.injEq] at h
          obtain ⟨hod, heff⟩ := h
          obtain ⟨hv1, hd1⟩ := hok od1 effs1 hp
          exact ⟨by rw [← hod]; exact hv1, by rw [← heff]; exact hd1⟩
    · simp [h0] at h
  · intro e effs h
    unfold completeCheckoutPrePaymentPart at h
    by_cases h0 : ext.prePaymentValidationOk
    · simp only [h0, Bool.not_true, Bool.false_eq_true, if_false] at h
      rcases hp : prepareOrderData checkout lines ext with ⟨res1, effs1⟩
      rw [hp] at h
      cases res1 with
      | error e1 =>
          simp only [Prod.mk.injEq, Except.error.injEq] at h
          obtain ⟨-, heff⟩ := h
          rw [← heff, usageDelta_append, herr e1 effs1 hp]
          rfl
      | ok od1 => simp at h
    · simp only [h0, Bool.not_false, if_true, Prod.mk.injEq] at h
      obtain ⟨-, heff⟩ := h
      rw [← heff]
      rfl

theorem processPayment_usage {p : Payment} {od : OrderData} {ext : Ext} {v : Voucher}
    (hov : od.voucher = some v) (hu : v.usageLimit = true) :
    (∀ txn effs, processPayment p od ext = (.ok txn, effs) → usageDelta effs = 0) ∧
    (∀ e effs, processPayment p od ext = (.error e, effs) → usageDelta effs = -1) := by
  constructor <;> intro a effs h <;> unfold processPayment at h <;>
    by_cases hg : (ext.gatewayRaises || !ext.gatewayTxn.isSuccess) = true
  · simp [hg] at h
  · simp only [hg, Bool.false_eq_true, if_false, Prod.mk.injEq] at h
    obtain ⟨-, heff⟩ := h
    rw [← heff]
    rfl
  · simp only [hg, if_true, Prod.mk.injEq] at h
    obtain ⟨-, heff⟩ := h
    rw [← heff, hov]
    exact usageDelta_release_some hu
  · simp [hg] at h

theorem postPaymentPart_usage {db : DB} {checkout : Checkout} {channel : Channel}
    {payment : Option Payment} {txn : Option GatewayTxn} {od : OrderData}
    {ext : Ext} {v : Voucher}
    (hov : od.voucher = some v) (hu : v.usageLimit = true) :
    (∀ o ar ad db2 effs,
      completeCheckoutPostPaymentPart db checkout channel payment txn od ext =
        (.ok (some o, ar, ad), db2, effs) → usageDelta effs = 0) ∧
    (∀ ar ad db2 effs,
      completeCheckoutPostPaymentPart db checkout channel payment txn od ext =
        (.ok (none, ar, ad), db2, effs) →
      usageDelta effs = if ar then -1 else 0) ∧
    (∀ e db2 effs,
      completeCheckoutPostPaymentPart db checkout channel payment txn od ext =
        (.error e, db2, effs) →
      (e = .insufficientStock ∨ e = .giftCardNotApplicable) ∧ usageDelta effs = -1) := by
  refine ⟨?_, ?_, ?_⟩
  · intro o ar ad db2 effs h
    unfold completeCheckoutPostPaymentPart at h
    by_cases har : txnActionRequired payment txn
    · simp [har] at h
    · by_cases hro : isRefundOngoing payment ext
      · simp [har, hro] at h
      · simp only [har, hro, Bool.not_false, Bool.and_self, if_true, if_false,
          Bool.false_eq_true] at h
        rcases hc : createOrder db checkout channel od ext with ⟨res, db3⟩
        rw [hc] at h
        cases res with
        | error e => simp at h
        | ok order =>
            simp only [Prod.mk.injEq, Except.ok.injEq, Option.some.injEq,
              List.nil_append] at h
            obtain ⟨-, -, heff⟩ := h
            have hm : usageDelta
                (if (order.total.net.amount == 0 &&
                    order.channel.orderMarkAsPaidStrategy == MarkAsPaidStrategy.paymentFlow) =
                    true
                 then [Eff.markOrderAsPaid] else []) = 0 := by
              split <;> rfl
            rw [← heff, usageDelta_append, hm]
            rfl
  · intro ar ad db2 effs h
    unfold completeCheckoutPostPaymentPart at h
    by_cases har : txnActionRequired payment txn
    · simp only [har, Bool.not_true, Bool.false_eq_true, Bool.false_and, if_false,
        if_true, Prod.mk.injEq, Except.ok.injEq] at h
      obtain ⟨⟨-, har2, -⟩, -, heff⟩ := h
      rw [← heff, ← har2, hov]
      simp [usageDelta, effUsageDelta, hu]
    · by_cases hro : isRefundOngoing payment ext
      · simp only [har, hro, Bool.not_true, Bool.not_false, Bool.and_false,
          Bool.false_eq_true, if_false, Prod.mk.injEq, Except.ok.injEq] at h
        obtain ⟨⟨-, har2, -⟩, -, heff⟩ := h
        rw [← heff, ← har2]
        rfl
      · simp only [har, hro, Bool.not_false, Bool.and_self, if_true, if_false,
          Bool.false_eq_true] at h
        rcases hc : createOrder db checkout channel od ext with ⟨res, db3⟩
        rw [hc] at h
        cases res with
        | error e => simp at h
        | ok order => simp at h
  · intro e db2 effs h
    unfold completeCheckoutPostPaymentPart at h
    by_cases har : txnActionRequired payment txn
    · simp [har] at h
    · by_cases hro : isRefundOngoing payment ext
      · simp [har, hro] at h
      · simp only [har, hro, Bool.not_false, Bool.and_self, if_true, if_false,
          Bool.false_eq_true] at h
        rcases hc : createOrder db checkout channel od ext with ⟨res, db3⟩
        rw [hc] at h
        cases res with
        | ok order => simp at h
        | error e2 =>
            simp only [Prod.mk.injEq, Except.error.injEq, List.nil_append] at h
            obtain ⟨he, -, heff⟩ := h
            refine ⟨by rw [← he]; exact (createOrder_error_classes hc).1, ?_⟩
            rw [← heff, hov]
            simp [usageDelta, effUsageDelta, hu]

theorem phase3_usage {db : DB} {checkout : Checkout} {channel : Channel}
    {payment : Option Payment} {txn : Option GatewayTxn} {od : OrderData}
    {ext : Ext} {v : Voucher}
    (hov : od.voucher = some v) (hu : v.usageLimit = true) :
    (∀ o ar ad db2 effs,
      completeCheckoutPaymentPhase3 db checkout channel payment txn od ext =
        (.ok (some o, ar, ad), db2, effs) → usageDelta effs = 0) ∧
    (∀ ar ad db2 effs,
      completeCheckoutPaymentPhase3 db checkout channel payment txn od ext =
        (.ok (none, ar, ad), db2, effs) →
      usageDelta effs = if ar then -1 else 0) ∧
    (∀ e db2 effs,
      completeCheckoutPaymentPhase3 db checkout channel payment txn od ext =
        (.error e, db2, effs) →
      (e = .orderDoesNotExist ∧ usageDelta effs = 0) ∨
      ((e = .insufficientStock ∨ e = .giftCardNotApplicable) ∧
        usageDelta effs = -1)) := by
  obtain ⟨hA, hB, hC⟩ :=
    @postPaymentPart_usage db checkout channel payment txn od ext v hov hu
  by_cases hce : db.checkoutExists
  · have heq : completeCheckoutPaymentPhase3 db checkout channel payment txn od ext =
        completeCheckoutPostPaymentPart db checkout channel payment txn od ext := by
      unfold completeCheckoutPaymentPhase3
      simp [hce]
    rw [heq]
    exact ⟨hA, hB, fun e db2 effs h => Or.inr (hC e db2 effs h)⟩
  · have hce2 : db.checkoutExists = false := by simpa using hce
    have hrace : completeCheckoutPaymentPhase3 db checkout channel payment txn od ext =
        (match findOrderByToken db checkout.token with
         | some o => (.ok (some o, false, []), db, [])
         | none => (.error .orderDoesNotExist, db, [])) := by
      unfold completeCheckoutPaymentPhase3
      rw [hce2]
      rfl
    rcases hf : findOrderByToken db checkout.token with - | o2 <;> rw [hf] at hrace
    · refine ⟨?_, ?_, ?_⟩
      · intro o ar ad db2 effs h
        rw [hrace] at h
        simp at h
      · intro ar ad db2 effs h
        rw [hrace] at h
        simp at h
      · intro e db2 effs h
        rw [hrace] at h
        simp only [Prod.mk.injEq, Except.error.injEq] at h
        obtain ⟨he, -, heff⟩ := h
        exact Or.inl ⟨he.symm, by rw [← heff]; rfl⟩
    · refine ⟨?_, ?_, ?_⟩
      · intro o ar ad db2 effs h
        rw [hrace] at h
        simp only [Prod.mk.injEq, Except.ok.injEq, Option.some.injEq] at h
        obtain ⟨-, -, heff⟩ := h
        rw [← heff]
        rfl
      · intro ar ad db2 effs h
        rw [hrace] at h
        simp at h
      · intro e db2 effs h
        rw [hrace] at h
        simp at h

/-- C3: Voucher usage conservation in the payment flow (the voucher ledger
increase/release semantics of `discount/utils.py` is modelled from the spec,
§4.4).  For a `complete_checkout_with_payment` attempt on a live checkout
with a usage-limited voucher: returning an order comes with a net usage
change of exactly +1; an action-required return and every payment-error,
insufficient-stock, gift-card or tax failure comes with a net usage change
of 0 — on each such path the compensating release is executed in the trace
before the result is surfaced. -/
theorem voucher_usage_conservation (db : DB) (checkout : Checkout)
    (channel : Channel) (lines : List CheckoutLineInfo)
    (payment : Option Payment) (ext : Ext) (env : DB → DB) (v : Voucher)
    (res : Except Failure (Option Order × Bool × List (String × String)))
    (db2 : DB) (effs : List Eff)
    (hdb : db.checkoutExists = true)
    (hv : ext.voucherLookup = some v) (hu : v.usageLimit = true)
    (h : completeCheckoutWithPayment db checkout channel lines payment ext env =
      (res, db2, effs)) :
    (∀ o ar ad, res = .ok (some o, ar, ad) → usageDelta effs = 1) ∧
    (∀ ad, res = .ok (none, true, ad) → usageDelta effs = 0) ∧
    (∀ e, res = .error e →
      (e = .paymentError ∨ e = .insufficientStock ∨ e = .giftCardNotApplicable ∨
        e = .taxError) →
      usageDelta effs = 0) := by
  obtain ⟨hpok, hperr⟩ := @prePaymentPart_usage checkout lines payment ext v hv hu
  unfold completeCheckoutWithPayment at h
  rw [hdb] at h
  simp only [Bool.not_true, Bool.false_eq_true, if_false] at h
  rcases hpre : completeCheckoutPrePaymentPart checkout lines payment ext with ⟨res1, effs1⟩
  rw [hpre] at h
  cases res1 with
  | error e1 =>
      have hd1 := hperr e1 effs1 hpre
      simp only [Prod.mk.injEq] at h
      obtain ⟨hres, -, heffs⟩ := h
      refine ⟨?_, ?_, ?_⟩
      · intro o ar ad hr
        rw [← hres] at hr
        simp at hr
      · intro ad hr
        rw [← hres] at hr
        simp at hr
      · intro e hr henum
        rw [← heffs, usageDelta_cons, usageDelta_append, hd1]
        rfl
  | ok od =>
      obtain ⟨hov, hd1⟩ := hpok od effs1 hpre
      dsimp only at h
      rcases payment with - | p
      · rcases hp3 : completeCheckoutPaymentPhase3 (env db) checkout channel none none
            od ext with ⟨res3, db3, effs3⟩
        rw [hp3] at h
        dsimp only at h
        simp only [Prod.mk.injEq] at h
        obtain ⟨hres, -, heffs⟩ := h
        obtain ⟨q3A, q3B, q3C⟩ :=
          @phase3_usage (env db) checkout channel none none od ext v hov hu
        refine ⟨?_, ?_, ?_⟩
        · intro o ar ad hr
          rw [hres.trans hr] at hp3
          have hd3 := q3A o ar ad db3 effs3 hp3
          rw [← heffs]
          simp only [usageDelta_append, usageDelta_cons, usageDelta_nil, effUsageDelta,
            hd1, hd3]
          decide
        · intro ad hr
          rw [hres.trans hr] at hp3
          have hd3 := q3B true ad db3 effs3 hp3
          rw [← heffs]
          simp only [usageDelta_append, usageDelta_cons, usageDelta_nil, effUsageDelta,
            hd1, if_true] at *
          rw [hd3]
          decide
        · intro e hr henum
          rw [hres.trans hr] at hp3
          rcases q3C e db3 effs3 hp3 with ⟨he1, hd3⟩ | ⟨-, hd3⟩
          · rw [he1] at henum
            rcases henum with hx | hx | hx | hx <;> exact absurd hx (by decide)
          · rw [← heffs]
            simp only [usageDelta_append, usageDelta_cons, usageDelta_nil, effUsageDelta,
              hd1, hd3]
            decide
      · dsimp only at h
        rcases hpp : processPayment p od ext with ⟨res2, effs2⟩
        rw [hpp] at h
        obtain ⟨ppok, pperr⟩ := @processPayment_usage p od ext v hov hu
        cases res2 with
        | error e2 =>
            have hd2 := pperr e2 effs2 hpp
            dsimp only at h
            simp only [Prod.mk.injEq] at h
            obtain ⟨hres, -, heffs⟩ := h
            refine ⟨?_, ?_, ?_⟩
            · intro o ar ad hr
              rw [← hres] at hr
              simp at hr
            · intro ad hr
              rw [← hres] at hr
              simp at hr
            · intro e hr henum
              rw [← heffs]
              simp only [usageDelta_append, usageDelta_cons, usageDelta_nil,
                effUsageDelta, hd1, hd2]
              decide
        | ok txn =>
            have hd2 := ppok txn effs2 hpp
            by_cases hact : ext.paymentActiveAfterCall
            · simp only [hact, Bool.not_true, Bool.false_eq_true, if_false] at h
              rcases hp3 : completeCheckoutPaymentPhase3 (env db) checkout channel
                  (some p) (some txn) od ext with ⟨res3, db3, effs3⟩
              rw [hp3] at h
              dsimp only at h
              simp only [Prod.mk.injEq] at h
              obtain ⟨hres, -, heffs⟩ := h
              obtain ⟨q3A, q3B, q3C⟩ :=
                @phase3_usage (env db) checkout channel (some p) (some txn) od ext v
                  hov hu
              refine ⟨?_, ?_, ?_⟩
              · intro o ar ad hr
                rw [hres.trans hr] at hp3
                have hd3 := q3A o ar ad db3 effs3 hp3
                rw [← heffs]
                simp only [usageDelta_append, usageDelta_cons, usageDelta_nil,
                  effUsageDelta, hd1, hd2, hd3]
                decide
              · intro ad hr
                rw [hres.trans hr] at hp3
                have hd3 := q3B true ad db3 effs3 hp3
                rw [← heffs]
                simp only [usageDelta_append, usageDelta_cons, usageDelta_nil,
                  effUsageDelta, hd1, hd2, if_true] at *
                rw [hd3]
                decide
              · intro e hr henum
                rw [hres.trans hr] at hp3
                rcases q3C e db3 effs3 hp3 with ⟨he1, hd3⟩ | ⟨-, hd3⟩
                · rw [he1] at henum
                  rcases henum with hx | hx | hx | hx <;> exact absurd hx (by decide)
                · rw [← heffs]
                  simp only [usageDelta_append, usageDelta_cons, usageDelta_nil,
                    effUsageDelta, hd1, hd2, hd3]
                  decide
            · have hact2 : ext.paymentActiveAfterCall = false := by simpa using hact
              simp only [hact2, Bool.not_false, if_true, Prod.mk.injEq] at h
              obtain ⟨hres, -, heffs⟩ := h
              refine ⟨?_, ?_, ?_⟩
              · intro o ar ad hr
                rw [← hres] at hr
                simp at hr
              · intro ad hr
                rw [← hres] at hr
                simp at hr
              · intro e hr henum
                rw [← hres] at hr
                have he : Failure.inactivePayment = e := by
                  simpa using hr
                rw [← he] at henum
                rcases henum with hx | hx | hx | hx <;> exact absurd hx (by decide)

/-- Witness for C3: a concrete successful payment-flow completion (no
payment, live checkout, usage-limited voucher) has a net voucher usage
change of exactly +1. -/
theorem voucher_usage_conservation_witness :
    usageDelta (completeCheckoutWithPayment sampleDB sampleCheckout sampleChannel
      [sampleLineInfo] none sampleExt id).2.2 = 1 :=
  (voucher_usage_conservation sampleDB sampleCheckout sampleChannel [sampleLineInfo]
    none sampleExt id sampleVoucher
    (completeCheckoutWithPayment sampleDB sampleCheckout sampleChannel [sampleLineInfo]
      none sampleExt id).1
    (completeCheckoutWithPayment sampleDB sampleCheckout sampleChannel [sampleLineInfo]
      none sampleExt id).2.1
    (completeCheckoutWithPayment sampleDB sampleCheckout sampleChannel [sampleLineInfo]
      none sampleExt id).2.2
    rfl rfl rfl rfl).1
    (paymentFlowOrder sampleCheckout sampleChannel sampleOrderDataFull) false []
    (by rfl)

end Saleor
